import Mathlib

/-!
Verification of the judiciary staff-management backend (judstaff_back).

The development shallowly embeds the domain logic of the backend:
the Staff employment-status lifecycle (Staff model), the Court data model
and its creation/update routes (Court model, routes/courts.js), the
access-control checks of the staff routes (routes/staff.js), and the
user-creation validation (routes/users.js).  Persistence is modelled as a
list of records; object ids and dates are naturals; optional document
fields are `Option` values (`none` plays the role of an absent /
`undefined` field).
-/

namespace Judstaff

/-- Whitespace trimming, as applied by the express-validator `trim()`
sanitizer and the mongoose `trim: true` schema option (defined here by
structural recursion over the character list so that concrete inputs
evaluate). -/
def strTrim (s : String) : String :=
  String.mk (((s.data.dropWhile Char.isWhitespace).reverse.dropWhile
    Char.isWhitespace).reverse)

/-- Employment status of a staff member (Staff model, `employmentStatus`
enum: active, retired, dismissed, on_leave). -/
inductive EmpStatus
  | active
  | retired
  | dismissed
  | on_leave
deriving DecidableEq

/-- A staff document, restricted to the fields the lifecycle and update
operations touch.  Dates are naturals; an absent date field is `none`. -/
structure StaffRec where
  name : String
  position : String
  email : Option String
  phone : Option String
  employmentStatus : EmpStatus
  retirementDate : Option Nat
  dismissalDate : Option Nat
  leaveStartDate : Option Nat
  leaveEndDate : Option Nat
deriving DecidableEq

/-- The Staff pre-save hook: before every save it clears whichever
status-date fields do not match the current `employmentStatus`
(retirementDate unless retired, dismissalDate unless dismissed, and both
leaveStartDate and leaveEndDate unless on_leave). -/
def staffPreSave (s : StaffRec) : StaffRec :=
  { s with
    retirementDate := if s.employmentStatus = .retired then s.retirementDate else none
    dismissalDate := if s.employmentStatus = .dismissed then s.dismissalDate else none
    leaveStartDate := if s.employmentStatus = .on_leave then s.leaveStartDate else none
    leaveEndDate := if s.employmentStatus = .on_leave then s.leaveEndDate else none }

/-- The Staff instance method `updateEmploymentStatus(newStatus, date)`:
sets the status, clears all four status-specific dates, then sets the one
date matching the new status to the supplied date, or to the current time
(`now`) when no date is supplied; `active` sets no date.  The method ends
in `this.save()`, so the pre-save hook runs on the result. -/
def updateEmploymentStatus (s : StaffRec) (newStatus : EmpStatus)
    (date : Option Nat) (now : Nat) : StaffRec :=
  let cleared : StaffRec :=
    { s with
      employmentStatus := newStatus
      retirementDate := none
      dismissalDate := none
      leaveStartDate := none
      leaveEndDate := none }
  let withDate : StaffRec :=
    match newStatus with
    | .retired => { cleared with retirementDate := some (date.getD now) }
    | .dismissed => { cleared with dismissalDate := some (date.getD now) }
    | .on_leave => { cleared with leaveStartDate := some (date.getD now) }
    | .active => cleared
  staffPreSave withDate

/-- Body of a staff-update request (PUT /api/staff/:id): the validated
updatable fields, each optional, plus the `employmentStatus` /
`statusDate` pair handled by the status branch of the route. -/
structure StaffUpdate where
  name : Option String := none
  position : Option String := none
  email : Option String := none
  phone : Option String := none
  employmentStatus : Option EmpStatus := none
  statusDate : Option Nat := none
deriving DecidableEq

/-- The field-copy loop of PUT /api/staff/:id: every supplied key except
`employmentStatus` and `statusDate` is written onto the document. -/
def applyStaffFields (s : StaffRec) (u : StaffUpdate) : StaffRec :=
  { s with
    name := u.name.getD s.name
    position := u.position.getD s.position
    email := match u.email with | some e => some e | none => s.email
    phone := match u.phone with | some p => some p | none => s.phone }

/-- The record-update semantics of PUT /api/staff/:id: when the body
supplies an `employmentStatus` different from the stored one, the
transition method runs (with the body's `statusDate`); otherwise the other
supplied fields are copied and the document is saved (running the
pre-save hook). -/
def putStaffRecord (s : StaffRec) (u : StaffUpdate) (now : Nat) : StaffRec :=
  match u.employmentStatus with
  | some st =>
      if st ≠ s.employmentStatus then updateEmploymentStatus s st u.statusDate now
      else staffPreSave (applyStaffFields s u)
  | none => staffPreSave (applyStaffFields s u)

/-- The status-date consistency property: every status-date field that
does not match the current `employmentStatus` is cleared (so only the
date group of the current status can be populated). -/
def statusDatesConsistent (s : StaffRec) : Bool :=
  (s.employmentStatus == .retired || s.retirementDate.isNone)
  && (s.employmentStatus == .dismissed || s.dismissalDate.isNone)
  && (s.employmentStatus == .on_leave
      || (s.leaveStartDate.isNone && s.leaveEndDate.isNone))

/-- Court type (Court model `type` enum: circuit, magisterial). -/
inductive CourtType
  | circuit
  | magisterial
deriving DecidableEq

/-- A court document.  `circuitCourtId` is the parent reference of a
magisterial court.  `userId` is the owner reference the staff routes read
(`court.userId`); the Court schema declares no such path, so every stored
court carries `none` there, but the route code dereferences the field, so
the record models it as optional. -/
structure Court where
  id : Nat
  name : String
  ctype : CourtType
  circuitCourtId : Option Nat := none
  userId : Option Nat := none
  isActive : Bool := true
  location : Option String := none
  address : Option String := none
  contactInfo : Option String := none
  description : Option String := none
deriving DecidableEq

/-- `Court.findById`: first court in the store with the given id. -/
def findCourt (store : List Court) (cid : Nat) : Option Court :=
  store.find? (fun c => c.id == cid)

/-- Role of an authenticated caller (User `role`). -/
inductive Role
  | admin
  | circuit
  | magisterial
deriving DecidableEq

/-- The caller identity the auth middleware attaches to a request. -/
structure Caller where
  userId : Nat
  role : Role
deriving DecidableEq

/-- Outcome of the staff-by-court access check, as surfaced by the route:
200 allowed, 404 court not found, 403 access denied, or 500 when the
handler throws (the catch-all returns a generic internal error). -/
inductive AccessOutcome
  | allowed
  | notFound
  | permissionDenied
  | serverError
deriving DecidableEq

/-- The permission check of GET /api/staff/court/:courtId: resolve the
court (404 when absent); admins pass; otherwise the handler evaluates
`court.userId.toString()` WITHOUT optional chaining, so a court with no
`userId` raises a TypeError that the catch-all turns into a 500; when the
owner differs from the caller, a circuit caller is allowed exactly when
the target's `circuitCourtId` equals the id of the first circuit court
owned by the caller (`Court.findOne({ userId, type: 'circuit' })`), and
every other caller is denied. -/
def staffByCourtAccess (store : List Court) (caller : Caller)
    (courtId : Nat) : AccessOutcome :=
  match findCourt store courtId with
  | none => .notFound
  | some court =>
    if caller.role = .admin then .allowed
    else
      match court.userId with
      | none => .serverError
      | some uid =>
        if uid = caller.userId then .allowed
        else if caller.role = .circuit then
          match store.find? (fun c =>
              c.userId == some caller.userId && c.ctype == .circuit) with
          | none => .permissionDenied
          | some userCourt =>
            if court.circuitCourtId = some userCourt.id then .allowed
            else .permissionDenied
        else .permissionDenied

/-- The Court pre-save validation together with the schema constraints
checked at save time: the name is required (non-empty after trimming) and
at most 100 characters, and a magisterial court must carry a
`circuitCourtId` that resolves to an existing court of circuit type
(the hook re-queries the store and rejects otherwise). -/
def courtSaveOk (store : List Court) (c : Court) : Bool :=
  ((strTrim c.name) ≠ "" && (strTrim c.name).length ≤ 100)
  && (match c.ctype, c.circuitCourtId with
      | .magisterial, some cid =>
          (match findCourt store cid with
           | some cc => cc.ctype == .circuit
           | none => false)
      | .magisterial, none => false
      | .circuit, _ => true)

/-- Body of a magisterial-court creation request (POST /api/courts/magisterial). -/
structure MagCourtRequest where
  name : String
  circuitCourtId : Option Nat := none
  location : Option String := none
  address : Option String := none
  contactInfo : Option String := none
  description : Option String := none
deriving DecidableEq

/-- The express-validator chain of POST /api/courts/magisterial: trimmed
name of length at least 2, optional location of at most 200 characters,
and a non-empty `circuitCourtId`. -/
def magCourtRequestFieldsValid (r : MagCourtRequest) : Bool :=
  2 ≤ (strTrim r.name).length
  && (match r.location with | some l => (strTrim l).length ≤ 200 | none => true)
  && r.circuitCourtId.isSome

/-- Outcome of a court-creation request: 201 created, 400 validation
failure (bad fields or an unresolvable / non-circuit parent), or 500 when
the save itself throws. -/
inductive CreateCourtOutcome
  | created (id : Nat)
  | validationFailed
  | serverError
deriving DecidableEq

/-- POST /api/courts/magisterial: run the validators (400 on failure),
resolve the supplied `circuitCourtId` and reject with 400 when it is
absent or does not name a circuit-type court, and only then construct and
save the new magisterial court (the save re-runs the pre-save reference
check).  The returned store is the persisted state. -/
def createMagisterialCourt (store : List Court) (r : MagCourtRequest)
    (newId : Nat) : CreateCourtOutcome × List Court :=
  if !(magCourtRequestFieldsValid r) then (.validationFailed, store)
  else
    match r.circuitCourtId with
    | none => (.validationFailed, store)
    | some cid =>
      match findCourt store cid with
      | none => (.validationFailed, store)
      | some cc =>
        if cc.ctype ≠ .circuit then (.validationFailed, store)
        else
          let newCourt : Court :=
            { id := newId
              name := strTrim r.name
              ctype := .magisterial
              circuitCourtId := some cid
              userId := none
              isActive := true
              location := r.location
              address := r.address
              contactInfo := r.contactInfo
              description := r.description }
          if courtSaveOk store newCourt then (.created newId, store ++ [newCourt])
          else (.serverError, store)

/-- The property the spec states for magisterial-court creation: the
supplied parent reference resolves to an existing court of circuit type. -/
def resolvesToCircuitCourt (store : List Court) (parentRef : Option Nat) : Prop :=
  ∃ cid cc, parentRef = some cid ∧ findCourt store cid = some cc
    ∧ cc.ctype = CourtType.circuit

/-- Body of a court-update request (PUT /api/courts/:id): the route
destructures exactly name, address, contactInfo and description. -/
structure CourtUpdate where
  name : Option String := none
  address : Option String := none
  contactInfo : Option String := none
  description : Option String := none
deriving DecidableEq

/-- The express-validator chain of PUT /api/courts/:id: an optional name
must have trimmed length at least 2. -/
def courtUpdateFieldsValid (u : CourtUpdate) : Bool :=
  match u.name with
  | some n => 2 ≤ (strTrim n).length
  | none => true

/-- The field writes of PUT /api/courts/:id: each supplied field is
written onto the document (the schema trims the name on set); no other
field of the court is touched. -/
def updateCourtFields (c : Court) (u : CourtUpdate) : Court :=
  { c with
    name := match u.name with | some n => strTrim n | none => c.name
    address := match u.address with | some a => some a | none => c.address
    contactInfo := match u.contactInfo with | some i => some i | none => c.contactInfo
    description := match u.description with | some d => some d | none => c.description }

/-- Outcome of a court-update request: 200 ok, 400 validation failure,
404 court not found, 403 non-admin caller, 500 save failure. -/
inductive UpdateCourtOutcome
  | ok
  | validationFailed
  | notFound
  | permissionDenied
  | serverError
deriving DecidableEq

/-- PUT /api/courts/:id: validators, then lookup (404), then the
admin-only check (403), then the field writes followed by a save that
re-runs the pre-save reference validation; on success the stored court
with the target id is replaced by the updated document. -/
def putCourt (store : List Court) (caller : Caller) (cid : Nat)
    (u : CourtUpdate) : UpdateCourtOutcome × List Court :=
  if !(courtUpdateFieldsValid u) then (.validationFailed, store)
  else
    match findCourt store cid with
    | none => (.notFound, store)
    | some c =>
      if caller.role ≠ .admin then (.permissionDenied, store)
      else
        let upd := updateCourtFields c u
        if courtSaveOk store upd then
          (.ok, store.map (fun d => if d.id == cid then upd else d))
        else (.serverError, store)

/-- A user account document (the fields POST /api/users constructs; the
stored password is the hash, kept opaque here). -/
structure UserRec where
  id : Nat
  username : String
  password : String
  name : String
  role : String
  circuitCourtId : Option Nat := none
  isActive : Bool := true
deriving DecidableEq

/-- Body of a user-creation request (POST /api/users). -/
structure UserCreateRequest where
  username : String
  password : String
  name : String
  role : String
  circuitCourtId : Option Nat := none
deriving DecidableEq

/-- The express-validator chain of POST /api/users: trimmed username of
length at least 3 and alphanumeric, password of length at least 6,
trimmed name of length at least 2, and a role drawn from the list the
validator accepts — which is exactly `['admin']` in the source. -/
def userCreateFieldsValid (r : UserCreateRequest) : Bool :=
  3 ≤ (strTrim r.username).length
  && (strTrim r.username).data.all Char.isAlphanum
  && 6 ≤ r.password.length
  && 2 ≤ (strTrim r.name).length
  && ["admin"].contains r.role

/-- `User.findByUsername`: case-insensitive username lookup (the
in-memory store compares lowercased usernames). -/
def findByUsername (store : List UserRec) (username : String) : Option UserRec :=
  store.find? (fun u => u.username.toLower == username.toLower)

/-- Outcome of a user-creation request: 201 created, 400 validation
failure, 400 duplicate username. -/
inductive CreateUserOutcome
  | ok (id : Nat)
  | validationFailed
  | duplicateUsername
deriving DecidableEq

/-- POST /api/users: run the validators (400 on failure), reject a
case-insensitive duplicate username (400), then construct the user; a
`circuitCourtId` is attached only for a magisterial-role user. -/
def createUser (store : List UserRec) (r : UserCreateRequest)
    (newId : Nat) : CreateUserOutcome × List UserRec :=
  if !(userCreateFieldsValid r) then (.validationFailed, store)
  else
    match findByUsername store (strTrim r.username) with
    | some _ => (.duplicateUsername, store)
    | none =>
      let newUser : UserRec :=
        { id := newId
          username := strTrim r.username
          password := r.password
          name := strTrim r.name
          role := r.role
          circuitCourtId :=
            if r.role == "magisterial" then r.circuitCourtId else none
          isActive := true }
      (.ok newId, store ++ [newUser])

/-- The property the spec states for magisterial-court creation: the
supplied parent reference names an existing court of circuit type. -/
def parentResolvesToCircuit (store : List Court) (parentRef : Option Nat) : Bool :=
  match parentRef with
  | some cid =>
    match findCourt store cid with
    | some cc => cc.ctype == .circuit
    | none => false
  | none => false

/-! Concrete records used to evaluate the routes on small inputs. -/

/-- Circuit court owned by user 10 (the owner reference the staff routes
assume; the Court schema itself cannot store one). -/
def courtX1 : Court :=
  { id := 1, name := "First Circuit Court", ctype := .circuit, userId := some 10 }

/-- Magisterial court subordinate to `courtX1`, stored per the Court
schema (no owner field). -/
def courtM1 : Court :=
  { id := 2, name := "Central Magisterial Court", ctype := .magisterial
    circuitCourtId := some 1 }

/-- Circuit-role caller bound to `courtX1`. -/
def callerX1 : Caller := { userId := 10, role := .circuit }

/-- Circuit court stored per the Court schema (no owner field). -/
def courtX2 : Court :=
  { id := 3, name := "Second Circuit Court", ctype := .circuit }

/-- Magisterial court under `courtX2`, owned by user 20. -/
def courtM2 : Court :=
  { id := 4, name := "East Magisterial Court", ctype := .magisterial
    circuitCourtId := some 3, userId := some 20 }

/-- Magisterial-role caller bound to `courtM2`. -/
def callerM2 : Caller := { userId := 20, role := .magisterial }

/-- A lone circuit court stored per the Court schema. -/
def courtX3 : Court :=
  { id := 5, name := "Third Circuit Court", ctype := .circuit }

/-- Magisterial-role caller not bound to any stored court. -/
def callerM3 : Caller := { userId := 30, role := .magisterial }

/-- Circuit court "A" of the creation scenario. -/
def courtA : Court := { id := 1, name := "Circuit A", ctype := .circuit }

/-- Magisterial court "B" under "A" of the creation scenario. -/
def courtB : Court :=
  { id := 2, name := "Magisterial B", ctype := .magisterial, circuitCourtId := some 1 }

/-- Creation request for a magisterial court whose parent reference names
the magisterial court "B". -/
def badParentReq : MagCourtRequest :=
  { name := "Magisterial C", circuitCourtId := some 2 }

/-- Admin caller. -/
def adminCaller : Caller := { userId := 1, role := .admin }

/-- Court-update body renaming a court and changing its description. -/
def renameUpd : CourtUpdate :=
  { name := some "Renamed Court", description := some "updated seat" }

/-- A retired staff member with a recorded retirement date. -/
def staffSample : StaffRec :=
  { name := "Lisa Davis", position := "Magistrate Clerk"
    email := some "lisa.davis@court.gov", phone := none
    employmentStatus := .retired, retirementDate := some 100
    dismissalDate := none, leaveStartDate := none, leaveEndDate := none }

/-- Update body that re-supplies the current status together with a
status date and a changed position. -/
def sameStatusUpd : StaffUpdate :=
  { position := some "Senior Magistrate Clerk"
    employmentStatus := some .retired, statusDate := some 555 }

/-- User-creation request for a circuit-role account whose other fields
satisfy every field constraint. -/
def circuitUserReq : UserCreateRequest :=
  { username := "clerkuser", password := "longpass1"
    name := "Clerk User", role := "circuit" }

/-- The same request with role admin. -/
def adminUserReq : UserCreateRequest :=
  { username := "clerkuser", password := "longpass1"
    name := "Clerk User", role := "admin" }

/-- User-creation request with magisterial role and valid fields. -/
def magisterialUserReq : UserCreateRequest :=
  { username := "justiceuser", password := "longpass2"
    name := "Justice User", role := "magisterial", circuitCourtId := some 1 }

/-! Helper lemmas. -/

/-- After the pre-save hook, the status-date fields are consistent with
the employment status. -/
theorem statusDatesConsistent_staffPreSave (s : StaffRec) :
    statusDatesConsistent (staffPreSave s) = true := by
  rcases s with ⟨n, p, e, ph, st, rd, dd, ls, le⟩
  cases st <;> simp [staffPreSave, statusDatesConsistent]

/-- The transition method also lands in a consistent state, since it ends
in a save. -/
theorem statusDatesConsistent_updateEmploymentStatus (s : StaffRec)
    (v : EmpStatus) (d : Option Nat) (now : Nat) :
    statusDatesConsistent (updateEmploymentStatus s v d now) = true := by
  cases v <;> exact statusDatesConsistent_staffPreSave _

/-! Claim theorems. -/

/-- Claim C3: for every staff record, new status and optional date, the
employment-status transition clears all four status-date fields and then
sets exactly the field matching the new status, to the supplied date when
present and to the current time otherwise; `active` sets no date field,
and `leaveEndDate` is never set by the operation. -/
theorem transitionSetsExactlyMatchingDate (s : StaffRec) (v : EmpStatus)
    (d : Option Nat) (now : Nat) :
    (updateEmploymentStatus s v d now).employmentStatus = v
    ∧ (updateEmploymentStatus s v d now).retirementDate
        = (if v = .retired then some (d.getD now) else none)
    ∧ (updateEmploymentStatus s v d now).dismissalDate
        = (if v = .dismissed then some (d.getD now) else none)
    ∧ (updateEmploymentStatus s v d now).leaveStartDate
        = (if v = .on_leave then some (d.getD now) else none)
    ∧ (updateEmploymentStatus s v d now).leaveEndDate = none := by
  cases v <;> simp [updateEmploymentStatus, staffPreSave]

/-- Claim C4: every save path re-establishes the status-date invariant:
the pre-save hook clears every date field not matching the current
employment status, and both the transition method and the staff-update
route (which each end in a save) leave the record consistent. -/
theorem saveHookStatusDateInvariant :
    (∀ s, statusDatesConsistent (staffPreSave s) = true)
    ∧ (∀ s v d now, statusDatesConsistent (updateEmploymentStatus s v d now) = true)
    ∧ (∀ s u now, statusDatesConsistent (putStaffRecord s u now) = true) := by
  refine ⟨statusDatesConsistent_staffPreSave,
    statusDatesConsistent_updateEmploymentStatus, ?_⟩
  intro s u now
  rcases hu : u.employmentStatus with _ | st
  · simpa [putStaffRecord, hu] using
      statusDatesConsistent_staffPreSave (applyStaffFields s u)
  · by_cases hst : st = s.employmentStatus
    · simpa [putStaffRecord, hu, hst] using
        statusDatesConsistent_staffPreSave (applyStaffFields s u)
    · simpa [putStaffRecord, hu, hst] using
        statusDatesConsistent_updateEmploymentStatus s st u.statusDate now

/-- Claim C7: re-applying the same employment-status transition with the
same date (and at the same clock reading) yields the same record as
applying it once. -/
theorem transitionIdempotent (s : StaffRec) (v : EmpStatus)
    (d : Option Nat) (now : Nat) :
    updateEmploymentStatus (updateEmploymentStatus s v d now) v d now
      = updateEmploymentStatus s v d now := by
  cases v <;> rfl

/-- Claim C10: when the update body re-supplies the record's current
employment status, the transition method is not invoked: the outcome is
the plain field-copy save, the supplied `statusDate` has no effect, the
status and the status-date fields are exactly those the unchanged status
determines through the save hook, and the other supplied fields are
written. -/
theorem sameStatusUpdateSkipsTransition (s : StaffRec) (u : StaffUpdate)
    (now : Nat) (d : Option Nat)
    (h : u.employmentStatus = some s.employmentStatus) :
    putStaffRecord s u now = staffPreSave (applyStaffFields s u)
    ∧ putStaffRecord s u now = putStaffRecord s { u with statusDate := d } now
    ∧ (putStaffRecord s u now).employmentStatus = s.employmentStatus
    ∧ (putStaffRecord s u now).retirementDate = (staffPreSave s).retirementDate
    ∧ (putStaffRecord s u now).dismissalDate = (staffPreSave s).dismissalDate
    ∧ (putStaffRecord s u now).leaveStartDate = (staffPreSave s).leaveStartDate
    ∧ (putStaffRecord s u now).leaveEndDate = (staffPreSave s).leaveEndDate
    ∧ (putStaffRecord s u now).name = u.name.getD s.name
    ∧ (putStaffRecord s u now).position = u.position.getD s.position := by
  have hmain : putStaffRecord s u now = staffPreSave (applyStaffFields s u) := by
    simp [putStaffRecord, h]
  have hdrop : putStaffRecord s { u with statusDate := d } now
      = staffPreSave (applyStaffFields s { u with statusDate := d }) := by
    simp [putStaffRecord, h]
  refine ⟨hmain, ?_, ?_, ?_, ?_, ?_, ?_, ?_, ?_⟩ <;>
    simp [hmain, hdrop, staffPreSave, applyStaffFields]

/-- Witness for C10 at a concrete retired staff member whose update
re-supplies the retired status with a fresh status date. -/
theorem sameStatusUpdateSkipsTransition_witness :
    putStaffRecord staffSample sameStatusUpd 999
      = staffPreSave (applyStaffFields staffSample sameStatusUpd)
    ∧ putStaffRecord staffSample sameStatusUpd 999
      = putStaffRecord staffSample { sameStatusUpd with statusDate := some 777 } 999
    ∧ (putStaffRecord staffSample sameStatusUpd 999).employmentStatus
      = staffSample.employmentStatus
    ∧ (putStaffRecord staffSample sameStatusUpd 999).retirementDate
      = (staffPreSave staffSample).retirementDate
    ∧ (putStaffRecord staffSample sameStatusUpd 999).dismissalDate
      = (staffPreSave staffSample).dismissalDate
    ∧ (putStaffRecord staffSample sameStatusUpd 999).leaveStartDate
      = (staffPreSave staffSample).leaveStartDate
    ∧ (putStaffRecord staffSample sameStatusUpd 999).leaveEndDate
      = (staffPreSave staffSample).leaveEndDate
    ∧ (putStaffRecord staffSample sameStatusUpd 999).name
      = sameStatusUpd.name.getD staffSample.name
    ∧ (putStaffRecord staffSample sameStatusUpd 999).position
      = sameStatusUpd.position.getD staffSample.position :=
  sameStatusUpdateSkipsTransition staffSample sameStatusUpd 999 (some 777) rfl

/-- Claim C1 (code bug): a circuit-role caller bound to circuit court
`courtX1` is allowed on that court, but a request for the subordinate
magisterial court — stored without an owner field, as the Court schema
forces — is answered with a 500 server error instead of being allowed:
the handler dereferences `court.userId` without optional chaining before
it ever reaches the subordination test. -/
theorem staffByCourtCircuitCallerBug :
    staffByCourtAccess [courtX1, courtM1] callerX1 1 = .allowed
    ∧ staffByCourtAccess [courtX1, courtM1] callerX1 2 = .serverError := by
  constructor <;> rfl

/-- Claim C2 (code bug): a magisterial-role caller bound to `courtM2` is
allowed on that court, but the request for the parent circuit court —
stored without an owner field, as the Court schema forces — is answered
with a 500 server error instead of the claimed permission-denied
outcome. -/
theorem staffByCourtMagisterialCallerBug :
    staffByCourtAccess [courtX2, courtM2] callerM2 4 = .allowed
    ∧ staffByCourtAccess [courtX2, courtM2] callerM2 3 = .serverError := by
  constructor <;> rfl

/-- Claim C6 (code bug): a missing court id is answered with the
not-found outcome, but an unauthorized caller requesting an existing
schema-stored court receives a generic 500 failure, not the claimed
permission-denied outcome. -/
theorem staffByCourtErrorTaxonomyBug :
    staffByCourtAccess [courtX3] callerM3 99 = .notFound
    ∧ staffByCourtAccess [courtX3] callerM3 5 = .serverError := by
  constructor <;> rfl

/-- Claim C5: a magisterial-court creation succeeds only when the
supplied `circuitCourtId` resolves to an existing circuit-type court, and
whenever the parent reference is missing, unresolvable or names a
non-circuit court, the request fails with a validation error before any
write: the store is unchanged. -/
theorem magisterialCreationRequiresCircuitParent (store : List Court)
    (r : MagCourtRequest) (newId : Nat) :
    ((createMagisterialCourt store r newId).1 = .created newId →
      parentResolvesToCircuit store r.circuitCourtId = true)
    ∧ (parentResolvesToCircuit store r.circuitCourtId = false →
      (createMagisterialCourt store r newId).1 = .validationFailed
      ∧ (createMagisterialCourt store r newId).2 = store) := by
  constructor
  · intro h
    by_cases hv : magCourtRequestFieldsValid r = true
    · rcases hc : r.circuitCourtId with _ | cid
      · simp [createMagisterialCourt, hv, hc] at h
      · rcases hf : findCourt store cid with _ | cc
        · simp [createMagisterialCourt, hv, hc, hf] at h
        · by_cases ht : cc.ctype = .circuit
          · simp [parentResolvesToCircuit, hc, hf, ht]
          · simp [createMagisterialCourt, hv, hc, hf, ht] at h
    · rw [Bool.not_eq_true] at hv
      simp [createMagisterialCourt, hv] at h
  · intro h
    by_cases hv : magCourtRequestFieldsValid r = true
    · rcases hc : r.circuitCourtId with _ | cid
      · simp [createMagisterialCourt, hv, hc]
      · rcases hf : findCourt store cid with _ | cc
        · simp [createMagisterialCourt, hv, hc, hf]
        · by_cases ht : cc.ctype = .circuit
          · simp [parentResolvesToCircuit, hc, hf, ht] at h
          · simp [createMagisterialCourt, hv, hc, hf, ht]
    · rw [Bool.not_eq_true] at hv
      simp [createMagisterialCourt, hv]

/-- Witness for C5 at the spec's scenario: with circuit court "A" and
magisterial court "B" under it in the store, creating magisterial court
"C" whose parent reference names "B" fails with a validation error and
writes nothing. -/
theorem magisterialCreationRequiresCircuitParent_witness :
    (createMagisterialCourt [courtA, courtB] badParentReq 3).1
      = CreateCourtOutcome.validationFailed
    ∧ (createMagisterialCourt [courtA, courtB] badParentReq 3).2
      = [courtA, courtB] :=
  (magisterialCreationRequiresCircuitParent [courtA, courtB] badParentReq 3).2
    (by decide)

/-- Claim C9: the court-update route can change only name, address,
contactInfo and description; for every store with distinct court ids,
every caller, target id and update body, the type, parent reference and
active flag (and id) of every stored court are unchanged by the
operation. -/
theorem courtUpdateImmutableHierarchy (store : List Court) (caller : Caller)
    (cid : Nat) (u : CourtUpdate)
    (hids : (store.map (fun c => c.id)).Nodup) :
    ((putCourt store caller cid u).2).map
        (fun c => (c.id, c.ctype, c.circuitCourtId, c.isActive))
      = store.map (fun c => (c.id, c.ctype, c.circuitCourtId, c.isActive)) := by
  by_cases hv : courtUpdateFieldsValid u = true
  · rcases hf : findCourt store cid with _ | c
    · simp [putCourt, hv, hf]
    · by_cases hr : caller.role = .admin
      · by_cases hs : courtSaveOk store (updateCourtFields c u) = true
        · have hmain : (putCourt store caller cid u).2
              = store.map (fun d => if d.id == cid then updateCourtFields c u else d) := by
            simp [putCourt, hv, hf, hr, hs]
          rw [hmain, List.map_map]
          apply List.map_congr_left
          intro d hd
          simp only [Function.comp]
          by_cases hdc : (d.id == cid) = true
          · have hf2 : List.find? (fun x => x.id == cid) store = some c := hf
            have hp := @List.find?_some Court (fun x => x.id == cid) c store hf2
            have hcid : c.id = cid := eq_of_beq hp
            have hdeq : d = c := by
              apply List.inj_on_of_nodup_map hids hd (List.mem_of_find?_eq_some hf2)
              rw [eq_of_beq hdc, hcid]
            subst hdeq
            simp [hdc, updateCourtFields]
          · simp [hdc]
        · simp [putCourt, hv, hf, hr, hs]
      · simp [putCourt, hv, hf, hr]
  · rw [Bool.not_eq_true] at hv
    simp [putCourt, hv]

/-- Witness for C9: renaming the magisterial court "B" as admin leaves
every court id, type, parent reference and active flag in the store
unchanged. -/
theorem courtUpdateImmutableHierarchy_witness :
    ((putCourt [courtA, courtB] adminCaller 2 renameUpd).2).map
        (fun c => (c.id, c.ctype, c.circuitCourtId, c.isActive))
      = [courtA, courtB].map (fun c => (c.id, c.ctype, c.circuitCourtId, c.isActive)) :=
  courtUpdateImmutableHierarchy [courtA, courtB] adminCaller 2 renameUpd (by decide)

/-- Claim C8 (counterexample): a creation request with role circuit (or
magisterial) that satisfies every other field constraint is rejected with
a validation failure — the route's role validator accepts only the role
admin — while the identical request with role admin succeeds. -/
theorem userCreationRoleCounterexample :
    (createUser [] circuitUserReq 1).1 = .validationFailed
    ∧ (createUser [] magisterialUserReq 1).1 = .validationFailed
    ∧ (createUser [] adminUserReq 1).1 = .ok 1 := by
  refine ⟨?_, ?_, ?_⟩ <;> decide

/-- Claim C8 (amended): the user-creation route accepts the requested
role exactly when it is admin: a successful creation implies the role was
admin, and any request with a different role — including circuit and
magisterial — fails with a validation error. -/
theorem userCreationRoleGate (store : List UserRec) (r : UserCreateRequest)
    (newId : Nat) :
    ((createUser store r newId).1 = .ok newId → r.role = "admin")
    ∧ (r.role ≠ "admin" → (createUser store r newId).1 = .validationFailed) := by
  constructor
  · intro h
    by_cases hv : userCreateFieldsValid r = true
    · have hc : ["admin"].contains r.role = true := by
        simp only [userCreateFieldsValid, Bool.and_eq_true] at hv
        exact hv.2
      simpa using hc
    · rw [Bool.not_eq_true] at hv
      simp [createUser, hv] at h
  · intro hne
    have hv : userCreateFieldsValid r = false := by
      simp [userCreateFieldsValid, hne]
    simp [createUser, hv]

/-- Witness for the amended C8: a request with an out-of-set role fails
with a validation error. -/
theorem userCreationRoleGate_witness :
    (createUser [] { username := "auditor77", password := "password9", name := "Audit User", role := "auditor" } 4).1
      = CreateUserOutcome.validationFailed :=
  (userCreationRoleGate []
    { username := "auditor77", password := "password9", name := "Audit User", role := "auditor" } 4).2 (by decide)

end Judstaff
